import Mathlib

/-!
Shallow embedding of `src/consts.rs` of the rust-sc2 repository: the static
game-knowledge tables (alias relations, tech/production graph, combat and
movement modifiers, race profiles, inhibitor-zone data) and their query
functions, together with proofs and refutations of the stated table
invariants.

Modelling conventions:
* Each Rust `hashmap![k1 => v1, ...]` literal is embedded as the Lean list of
  its entries in source order; `mapFind` reproduces the `HashMap` semantics of
  building the map by inserting the entries in order (a later duplicate key
  overwrites an earlier one) and then looking a key up.
* The identifier enums (`UnitTypeId`, `UpgradeId`, `Race`, `Attribute`,
  `TargetType`) are external to the file `consts.rs`; they are embedded with
  exactly the constructors that `consts.rs` mentions, since every other
  identifier behaves identically in every table (absent from all of them).
* `f32` literals never take part in arithmetic in the embedded tables; they
  are embedded as the exact rational value of the decimal literal.
* The `#[cfg(windows)] / #[cfg(unix)]` conditional compilation axis is
  embedded as an explicit `Variant` parameter (`windows` = full-feature
  client, `unix` = reduced-feature client).
-/

set_option maxRecDepth 20000

namespace SC2

inductive Race
  | Terran | Zerg | Protoss
  deriving DecidableEq, Fintype

inductive Attribute
  | Light | Armored | Biological | Mechanical | Massive | Structure
  deriving DecidableEq, Fintype

inductive TargetType
  | Ground | Air | Any
  deriving DecidableEq, Fintype

/-- The two conditional-compilation variants of the dataset:
`windows` = full-feature game client, `unix` = reduced-feature client. -/
inductive Variant
  | windows | unix
  deriving DecidableEq, Fintype

inductive UnitTypeId
  | Adept | AdeptPhaseShift | Archon | Armory | Assimilator | AssimilatorRich
  | AutoTurret | Baneling | BanelingBurrowed | BanelingCocoon | BanelingNest
  | Banshee | Barracks | BarracksFlying | BarracksReactor | BarracksTechLab
  | Battlecruiser | BroodLord | Bunker | Carrier | Changeling
  | ChangelingMarine | ChangelingMarineShield | ChangelingZealot
  | ChangelingZergling | ChangelingZerglingWings | Colossus | CommandCenter
  | CommandCenterFlying | Corruptor | CreepTumor | CreepTumorBurrowed
  | CreepTumorQueen | CyberneticsCore | Cyclone | DarkShrine | DarkTemplar
  | Disruptor | Drone | DroneBurrowed | EngineeringBay | EvolutionChamber
  | Extractor | ExtractorRich | Factory | FactoryFlying | FactoryReactor
  | FactoryTechLab | FleetBeacon | Forge | FusionCore | Gateway | Ghost
  | GhostAcademy | GreaterSpire | Hatchery | Hellion | HellionTank
  | HighTemplar | Hive | Hydralisk | HydraliskBurrowed | HydraliskDen
  | Immortal | InfestationPit | Infestor | InfestorBurrowed | InfestorTerran
  | InfestorTerranBurrowed | InhibitorZoneFlyingLarge
  | InhibitorZoneFlyingMedium | InhibitorZoneFlyingSmall | InhibitorZoneLarge
  | InhibitorZoneMedium | InhibitorZoneSmall | Lair | Larva | Liberator
  | LiberatorAG | LocustMP | LocustMPFlying | LurkerDenMP | LurkerMP
  | LurkerMPBurrowed | Marauder | Marine | Medivac | MissileTurret
  | Mothership | Mutalisk | Nexus | NotAUnit | NydusCanal | NydusNetwork
  | Observer | ObserverSiegeMode | Oracle | OracleStasisTrap | OrbitalCommand
  | OrbitalCommandFlying | Overlord | OverlordTransport | Overseer
  | OverseerSiegeMode | Phoenix | PhotonCannon | PlanetaryFortress | Probe
  | Pylon | PylonOvercharged | Queen | QueenBurrowed | Ravager
  | RavagerBurrowed | RavagerCocoon | Raven | Reactor | Reaper | Refinery
  | RefineryRich | Roach | RoachBurrowed | RoachWarren | RoboticsBay
  | RoboticsFacility | SCV | SensorTower | Sentry | ShieldBattery | SiegeTank
  | SiegeTankSieged | SpawningPool | SpineCrawler | SpineCrawlerUprooted
  | Spire | SporeCrawler | SporeCrawlerUprooted | Stalker | Stargate
  | Starport | StarportFlying | StarportReactor | StarportTechLab
  | SupplyDepot | SupplyDepotLowered | SwarmHostBurrowedMP | SwarmHostMP
  | TechLab | Tempest | TemplarArchive | Thor | ThorAP | TwilightCouncil
  | Ultralisk | UltraliskBurrowed | UltraliskCavern | Viking | VikingAssault
  | VikingFighter | Viper | VoidRay | WarpGate | WarpPrism | WarpPrismPhasing
  | WidowMine | WidowMineBurrowed | Zealot | Zergling | ZerglingBurrowed
  deriving DecidableEq, Fintype

inductive UpgradeId
  | AdeptPiercingAttack | AnabolicSynthesis | BansheeCloak | BansheeSpeed
  | BattlecruiserEnableSpecializations | BlinkTech | Burrow | CentrificalHooks
  | Charge | ChitinousPlating | CycloneLockOnDamageUpgrade
  | DarkTemplarBlinkUpgrade | DiggingClaws | DrillClaws | EnhancedShockwaves
  | EvolveGroovedSpines | EvolveMuscularAugments | ExtendedThermalLance
  | GlialReconstitution | GraviticDrive | HiSecAutoTracking
  | HighCapacityBarrels | InfestorEnergyUpgrade | LiberatorMorph
  | MedivacIncreaseSpeedBoost | MedivacRapidDeployment | NeuralParasite
  | ObserverGraviticBooster | Overlordspeed | PersonalCloaking
  | PhoenixRangeUpgrade | ProtossAirArmorsLevel1 | ProtossAirArmorsLevel2
  | ProtossAirArmorsLevel3 | ProtossAirWeaponsLevel1 | ProtossAirWeaponsLevel2
  | ProtossAirWeaponsLevel3 | ProtossGroundArmorsLevel1
  | ProtossGroundArmorsLevel2 | ProtossGroundArmorsLevel3
  | ProtossGroundWeaponsLevel1 | ProtossGroundWeaponsLevel2
  | ProtossGroundWeaponsLevel3 | ProtossShieldsLevel1 | ProtossShieldsLevel2
  | ProtossShieldsLevel3 | PsiStormTech | PunisherGrenades
  | RavenCorvidReactor | ShieldWall | SmartServos | Stimpack
  | TerranBuildingArmor | TerranInfantryArmorsLevel1
  | TerranInfantryArmorsLevel2 | TerranInfantryArmorsLevel3
  | TerranInfantryWeaponsLevel1 | TerranInfantryWeaponsLevel2
  | TerranInfantryWeaponsLevel3 | TerranShipWeaponsLevel1
  | TerranShipWeaponsLevel2 | TerranShipWeaponsLevel3
  | TerranVehicleAndShipArmorsLevel1 | TerranVehicleAndShipArmorsLevel2
  | TerranVehicleAndShipArmorsLevel3 | TerranVehicleWeaponsLevel1
  | TerranVehicleWeaponsLevel2 | TerranVehicleWeaponsLevel3
  | VoidRaySpeedUpgrade | WarpGateResearch | ZergFlyerArmorsLevel1
  | ZergFlyerArmorsLevel2 | ZergFlyerArmorsLevel3 | ZergFlyerWeaponsLevel1
  | ZergFlyerWeaponsLevel2 | ZergFlyerWeaponsLevel3 | ZergGroundArmorsLevel1
  | ZergGroundArmorsLevel2 | ZergGroundArmorsLevel3 | ZergMeleeWeaponsLevel1
  | ZergMeleeWeaponsLevel2 | ZergMeleeWeaponsLevel3
  | ZergMissileWeaponsLevel1 | ZergMissileWeaponsLevel2
  | ZergMissileWeaponsLevel3 | Zerglingattackspeed | Zerglingmovementspeed
  deriving DecidableEq, Fintype

/-- `TECH_ALIAS` from `consts.rs`: the morph-group alias relation, mapping a
unit to the other tech-tree-visible forms of the same building/unit. -/
def TECH_ALIAS : List (UnitTypeId × List UnitTypeId) :=
  [(.Assimilator, [.AssimilatorRich]),
  (.AssimilatorRich, [.Assimilator]),
  (.Barracks, [.BarracksFlying]),
  (.BarracksFlying, [.Barracks]),
  (.CommandCenter,
    [.CommandCenterFlying, .OrbitalCommand, .OrbitalCommandFlying,
     .PlanetaryFortress]),
  (.CommandCenterFlying,
    [.CommandCenter, .OrbitalCommand, .OrbitalCommandFlying,
     .PlanetaryFortress]),
  (.OrbitalCommand,
    [.CommandCenter, .CommandCenterFlying, .OrbitalCommandFlying,
     .PlanetaryFortress]),
  (.OrbitalCommandFlying,
    [.CommandCenter, .CommandCenterFlying, .OrbitalCommand,
     .PlanetaryFortress]),
  (.PlanetaryFortress,
    [.CommandCenter, .CommandCenterFlying, .OrbitalCommand,
     .OrbitalCommandFlying]),
  (.CreepTumorBurrowed, [.CreepTumor, .CreepTumorQueen]),
  (.CreepTumorQueen, [.CreepTumor, .CreepTumorBurrowed]),
  (.Hatchery, [.Lair, .Hive]),
  (.Lair, [.Hatchery, .Hive]),
  (.Hive, [.Hatchery, .Lair]),
  (.LiberatorAG, [.Liberator]),
  (.Liberator, [.LiberatorAG]),
  (.Extractor, [.ExtractorRich]),
  (.ExtractorRich, [.Extractor]),
  (.Spire, [.GreaterSpire]),
  (.GreaterSpire, [.Spire]),
  (.OverlordTransport, [.Overlord]),
  (.Overlord, [.OverlordTransport]),
  (.Overseer, [.OverseerSiegeMode]),
  (.OverseerSiegeMode, [.Overseer]),
  (.FactoryFlying, [.Factory])] ++
  [(.StarportFlying, [.Starport]),
  (.Reactor, [.BarracksReactor, .FactoryReactor, .StarportReactor]),
  (.TechLab, [.BarracksTechLab, .FactoryTechLab, .StarportTechLab]),
  (.BarracksReactor, [.Reactor]),
  (.BarracksTechLab, [.TechLab]),
  (.FactoryReactor, [.Reactor]),
  (.FactoryTechLab, [.TechLab]),
  (.StarportReactor, [.Reactor]),
  (.StarportTechLab, [.TechLab]),
  (.PylonOvercharged, [.Pylon]),
  (.Pylon, [.PylonOvercharged]),
  (.QueenBurrowed, [.Queen]),
  (.Queen, [.QueenBurrowed]),
  (.Refinery, [.RefineryRich]),
  (.RefineryRich, [.Refinery]),
  (.SiegeTank, [.SiegeTankSieged]),
  (.SiegeTankSieged, [.SiegeTank]),
  (.SupplyDepot, [.SupplyDepotLowered]),
  (.SupplyDepotLowered, [.SupplyDepot]),
  (.Thor, [.ThorAP]),
  (.ThorAP, [.Thor]),
  (.Viking, [.VikingFighter, .VikingAssault]),
  (.VikingFighter, [.Viking, .VikingAssault]),
  (.VikingAssault, [.Viking, .VikingFighter]),
  (.Gateway, [.WarpGate])] ++
  [(.WarpGate, [.Gateway]),
  (.WarpPrism, [.WarpPrismPhasing]),
  (.WarpPrismPhasing, [.WarpPrism]),
  (.WidowMine, [.WidowMineBurrowed]),
  (.WidowMineBurrowed, [.WidowMine])]

/-- `UNIT_ALIAS` from `consts.rs`: the paired alias relation, mapping a unit
to its toggled/morphed counterpart. The entry list is kept exactly in source
order; note that `Changeling` occurs five times and `CreepTumor` twice as a
key, so under `HashMap` insertion semantics the later entries overwrite the
earlier ones. -/
def UNIT_ALIAS : List (UnitTypeId × UnitTypeId) :=
  [(.Adept, .AdeptPhaseShift),
  (.AdeptPhaseShift, .Adept),
  (.Assimilator, .AssimilatorRich),
  (.AssimilatorRich, .Assimilator),
  (.Baneling, .BanelingBurrowed),
  (.BanelingBurrowed, .Baneling),
  (.Barracks, .BarracksFlying),
  (.BarracksFlying, .Barracks),
  (.Changeling, .ChangelingMarine),
  (.ChangelingMarine, .Changeling),
  (.Changeling, .ChangelingMarineShield),
  (.ChangelingMarineShield, .Changeling),
  (.Changeling, .ChangelingZealot),
  (.ChangelingZealot, .Changeling),
  (.Changeling, .ChangelingZergling),
  (.ChangelingZergling, .Changeling),
  (.Changeling, .ChangelingZerglingWings),
  (.ChangelingZerglingWings, .Changeling),
  (.CommandCenter, .CommandCenterFlying),
  (.CommandCenterFlying, .CommandCenter),
  (.CreepTumor, .CreepTumorBurrowed),
  (.CreepTumorBurrowed, .CreepTumor),
  (.CreepTumor, .CreepTumorQueen),
  (.CreepTumorQueen, .CreepTumor),
  (.Drone, .DroneBurrowed)] ++
  [(.DroneBurrowed, .Drone),
  (.Extractor, .ExtractorRich),
  (.ExtractorRich, .Extractor),
  (.Factory, .FactoryFlying),
  (.FactoryFlying, .Factory),
  (.Hydralisk, .HydraliskBurrowed),
  (.HydraliskBurrowed, .Hydralisk),
  (.Infestor, .InfestorBurrowed),
  (.InfestorBurrowed, .Infestor),
  (.InfestorTerran, .InfestorTerranBurrowed),
  (.InfestorTerranBurrowed, .InfestorTerran),
  (.Liberator, .LiberatorAG),
  (.LiberatorAG, .Liberator),
  (.LocustMP, .LocustMPFlying),
  (.LocustMPFlying, .LocustMP),
  (.LurkerMP, .LurkerMPBurrowed),
  (.LurkerMPBurrowed, .LurkerMP),
  (.Observer, .ObserverSiegeMode),
  (.ObserverSiegeMode, .Observer),
  (.OrbitalCommand, .OrbitalCommandFlying),
  (.OrbitalCommandFlying, .OrbitalCommand),
  (.Overseer, .OverseerSiegeMode),
  (.OverseerSiegeMode, .Overseer),
  (.Pylon, .PylonOvercharged),
  (.PylonOvercharged, .Pylon)] ++
  [(.Queen, .QueenBurrowed),
  (.QueenBurrowed, .Queen),
  (.Ravager, .RavagerBurrowed),
  (.RavagerBurrowed, .Ravager),
  (.Refinery, .RefineryRich),
  (.RefineryRich, .Refinery),
  (.Roach, .RoachBurrowed),
  (.RoachBurrowed, .Roach),
  (.SiegeTank, .SiegeTankSieged),
  (.SiegeTankSieged, .SiegeTank),
  (.SpineCrawler, .SpineCrawlerUprooted),
  (.SpineCrawlerUprooted, .SpineCrawler),
  (.SporeCrawler, .SporeCrawlerUprooted),
  (.SporeCrawlerUprooted, .SporeCrawler),
  (.Starport, .StarportFlying),
  (.StarportFlying, .Starport),
  (.SupplyDepot, .SupplyDepotLowered),
  (.SupplyDepotLowered, .SupplyDepot),
  (.SwarmHostMP, .SwarmHostBurrowedMP),
  (.SwarmHostBurrowedMP, .SwarmHostMP),
  (.Thor, .ThorAP),
  (.ThorAP, .Thor),
  (.Ultralisk, .UltraliskBurrowed),
  (.UltraliskBurrowed, .Ultralisk),
  (.VikingFighter, .VikingAssault)] ++
  [(.VikingAssault, .VikingFighter),
  (.WarpPrismPhasing, .WarpPrism),
  (.WarpPrism, .WarpPrismPhasing),
  (.WidowMine, .WidowMineBurrowed),
  (.WidowMineBurrowed, .WidowMine),
  (.Zergling, .ZerglingBurrowed),
  (.ZerglingBurrowed, .Zergling)]

/-- `TECH_REQUIREMENTS` from `consts.rs`: the single prerequisite building of
a unit/building. -/
def TECH_REQUIREMENTS : List (UnitTypeId × UnitTypeId) :=
  [(.MissileTurret, .EngineeringBay),
  (.SensorTower, .EngineeringBay),
  (.PlanetaryFortress, .EngineeringBay),
  (.Barracks, .SupplyDepot),
  (.OrbitalCommand, .Barracks),
  (.Bunker, .Barracks),
  (.Ghost, .GhostAcademy),
  (.GhostAcademy, .Barracks),
  (.Factory, .Barracks),
  (.Armory, .Factory),
  (.HellionTank, .Armory),
  (.Thor, .Armory),
  (.Starport, .Factory),
  (.FusionCore, .Starport),
  (.Battlecruiser, .FusionCore),
  (.PhotonCannon, .Forge),
  (.CyberneticsCore, .Gateway),
  (.Sentry, .CyberneticsCore),
  (.Stalker, .CyberneticsCore),
  (.Adept, .CyberneticsCore),
  (.TwilightCouncil, .CyberneticsCore),
  (.ShieldBattery, .CyberneticsCore),
  (.TemplarArchive, .TwilightCouncil),
  (.DarkShrine, .TwilightCouncil),
  (.HighTemplar, .TemplarArchive)] ++
  [(.DarkTemplar, .DarkShrine),
  (.Stargate, .CyberneticsCore),
  (.Tempest, .FleetBeacon),
  (.Carrier, .FleetBeacon),
  (.Mothership, .FleetBeacon),
  (.RoboticsFacility, .CyberneticsCore),
  (.RoboticsBay, .RoboticsFacility),
  (.Colossus, .RoboticsBay),
  (.Disruptor, .RoboticsBay),
  (.Zergling, .SpawningPool),
  (.Queen, .SpawningPool),
  (.RoachWarren, .SpawningPool),
  (.BanelingNest, .SpawningPool),
  (.SpineCrawler, .SpawningPool),
  (.SporeCrawler, .SpawningPool),
  (.Roach, .RoachWarren),
  (.Baneling, .BanelingNest),
  (.Lair, .SpawningPool),
  (.Overseer, .Lair),
  (.OverlordTransport, .Lair),
  (.InfestationPit, .Lair),
  (.Infestor, .InfestationPit),
  (.SwarmHostMP, .InfestationPit),
  (.HydraliskDen, .Lair),
  (.Hydralisk, .HydraliskDen)] ++
  [(.LurkerDenMP, .HydraliskDen),
  (.LurkerMP, .LurkerDenMP),
  (.Spire, .Lair),
  (.Mutalisk, .Spire),
  (.Corruptor, .Spire),
  (.NydusNetwork, .Lair),
  (.Hive, .InfestationPit),
  (.Viper, .Hive),
  (.UltraliskCavern, .Hive),
  (.GreaterSpire, .Hive),
  (.BroodLord, .GreaterSpire)]

/-- `PRODUCERS` from `consts.rs`: the canonical producer of each unit. -/
def PRODUCERS : List (UnitTypeId × UnitTypeId) :=
  [(.Adept, .Gateway),
  (.Armory, .SCV),
  (.Assimilator, .Probe),
  (.AutoTurret, .Raven),
  (.Baneling, .Zergling),
  (.BanelingNest, .Drone),
  (.Banshee, .Starport),
  (.Barracks, .SCV),
  (.Battlecruiser, .Starport),
  (.BroodLord, .Corruptor),
  (.Bunker, .SCV),
  (.Carrier, .Stargate),
  (.Changeling, .Overseer),
  (.Colossus, .RoboticsFacility),
  (.CommandCenter, .SCV),
  (.Corruptor, .Larva),
  (.CreepTumor, .Queen),
  (.CreepTumorQueen, .Queen),
  (.CyberneticsCore, .Probe),
  (.Cyclone, .Factory),
  (.DarkShrine, .Probe),
  (.DarkTemplar, .Gateway),
  (.Disruptor, .RoboticsFacility),
  (.Drone, .Larva),
  (.EngineeringBay, .SCV)] ++
  [(.EvolutionChamber, .Drone),
  (.Extractor, .Drone),
  (.Factory, .SCV),
  (.FleetBeacon, .Probe),
  (.Forge, .Probe),
  (.FusionCore, .SCV),
  (.Gateway, .Probe),
  (.Ghost, .Barracks),
  (.GhostAcademy, .SCV),
  (.GreaterSpire, .Spire),
  (.Hatchery, .Drone),
  (.Hellion, .Factory),
  (.HellionTank, .Factory),
  (.HighTemplar, .Gateway),
  (.Hive, .Lair),
  (.Hydralisk, .Larva),
  (.HydraliskDen, .Drone),
  (.Immortal, .RoboticsFacility),
  (.InfestationPit, .Drone),
  (.Infestor, .Larva),
  (.Lair, .Hatchery),
  (.Liberator, .Starport),
  (.LocustMPFlying, .SwarmHostMP),
  (.LurkerDenMP, .Drone),
  (.LurkerMP, .Hydralisk)] ++
  [(.Marauder, .Barracks),
  (.Marine, .Barracks),
  (.Medivac, .Starport),
  (.MissileTurret, .SCV),
  (.Mothership, .Nexus),
  (.Mutalisk, .Larva),
  (.Nexus, .Probe),
  (.NydusCanal, .NydusNetwork),
  (.NydusNetwork, .Drone),
  (.Observer, .RoboticsFacility),
  (.Oracle, .Stargate),
  (.OracleStasisTrap, .Oracle),
  (.OrbitalCommand, .CommandCenter),
  (.Overlord, .Larva),
  (.OverlordTransport, .Overlord),
  (.Overseer, .Overlord),
  (.Phoenix, .Stargate),
  (.PhotonCannon, .Probe),
  (.PlanetaryFortress, .CommandCenter),
  (.Probe, .Nexus),
  (.Pylon, .Probe),
  (.Queen, .Hatchery),
  (.Ravager, .Roach),
  (.Raven, .Starport),
  (.Reaper, .Barracks)] ++
  [(.Refinery, .SCV),
  (.Roach, .Larva),
  (.RoachWarren, .Drone),
  (.RoboticsBay, .Probe),
  (.RoboticsFacility, .Probe),
  (.SCV, .CommandCenter),
  (.SensorTower, .SCV),
  (.Sentry, .Gateway),
  (.ShieldBattery, .Probe),
  (.SiegeTank, .Factory),
  (.SpawningPool, .Drone),
  (.SpineCrawler, .Drone),
  (.Spire, .Drone),
  (.SporeCrawler, .Drone),
  (.Stalker, .Gateway),
  (.Stargate, .Probe),
  (.Starport, .SCV),
  (.SupplyDepot, .SCV),
  (.SwarmHostMP, .Larva),
  (.Tempest, .Stargate),
  (.TemplarArchive, .Probe),
  (.Thor, .Factory),
  (.TwilightCouncil, .Probe),
  (.Ultralisk, .Larva),
  (.UltraliskCavern, .Drone)] ++
  [(.VikingFighter, .Starport),
  (.Viper, .Larva),
  (.VoidRay, .Stargate),
  (.WarpPrism, .RoboticsFacility),
  (.WidowMine, .Factory),
  (.Zealot, .Gateway),
  (.Zergling, .Larva)]

/-- `ALL_PRODUCERS` from `consts.rs`: every producer (including alias/morph
forms) of each unit. -/
def ALL_PRODUCERS : List (UnitTypeId × List UnitTypeId) :=
  [(.Adept, [.Gateway, .WarpGate]),
  (.Armory, [.SCV]),
  (.Assimilator, [.Probe]),
  (.AutoTurret, [.Raven]),
  (.Baneling, [.Zergling]),
  (.BanelingNest, [.Drone]),
  (.Banshee, [.Starport]),
  (.Barracks, [.SCV]),
  (.Battlecruiser, [.Starport]),
  (.BroodLord, [.Corruptor]),
  (.Bunker, [.SCV]),
  (.Carrier, [.Stargate]),
  (.Changeling, [.Overseer, .OverseerSiegeMode]),
  (.Colossus, [.RoboticsFacility]),
  (.CommandCenter, [.SCV]),
  (.Corruptor, [.Larva]),
  (.CreepTumor,
    [.CreepTumor, .CreepTumorBurrowed, .CreepTumorQueen, .Queen]),
  (.CreepTumorQueen, [.Queen]),
  (.CyberneticsCore, [.Probe]),
  (.Cyclone, [.Factory]),
  (.DarkShrine, [.Probe]),
  (.DarkTemplar, [.Gateway, .WarpGate]),
  (.Disruptor, [.RoboticsFacility]),
  (.Drone, [.Larva]),
  (.EngineeringBay, [.SCV])] ++
  [(.EvolutionChamber, [.Drone]),
  (.Extractor, [.Drone]),
  (.Factory, [.SCV]),
  (.FleetBeacon, [.Probe]),
  (.Forge, [.Probe]),
  (.FusionCore, [.SCV]),
  (.Gateway, [.Probe]),
  (.Ghost, [.Barracks]),
  (.GhostAcademy, [.SCV]),
  (.GreaterSpire, [.Spire]),
  (.Hatchery, [.Drone]),
  (.Hellion, [.Factory]),
  (.HellionTank, [.Factory]),
  (.HighTemplar, [.Gateway, .WarpGate]),
  (.Hive, [.Lair]),
  (.Hydralisk, [.Larva]),
  (.HydraliskDen, [.Drone]),
  (.Immortal, [.RoboticsFacility]),
  (.InfestationPit, [.Drone]),
  (.Infestor, [.Larva]),
  (.Lair, [.Hatchery]),
  (.Liberator, [.Starport]),
  (.LocustMPFlying, [.SwarmHostBurrowedMP, .SwarmHostMP]),
  (.LurkerDenMP, [.Drone]),
  (.LurkerMP, [.Hydralisk])] ++
  [(.Marauder, [.Barracks]),
  (.Marine, [.Barracks]),
  (.Medivac, [.Starport]),
  (.MissileTurret, [.SCV]),
  (.Mothership, [.Nexus]),
  (.Mutalisk, [.Larva]),
  (.Nexus, [.Probe]),
  (.NydusCanal, [.NydusNetwork]),
  (.NydusNetwork, [.Drone]),
  (.Observer, [.RoboticsFacility]),
  (.Oracle, [.Stargate]),
  (.OracleStasisTrap, [.Oracle]),
  (.OrbitalCommand, [.CommandCenter]),
  (.Overlord, [.Larva]),
  (.OverlordTransport, [.Overlord]),
  (.Overseer, [.Overlord, .OverlordTransport]),
  (.Phoenix, [.Stargate]),
  (.PhotonCannon, [.Probe]),
  (.PlanetaryFortress, [.CommandCenter]),
  (.Probe, [.Nexus]),
  (.Pylon, [.Probe]),
  (.Queen, [.Hatchery, .Hive, .Lair]),
  (.Ravager, [.Roach]),
  (.Raven, [.Starport]),
  (.Reaper, [.Barracks])] ++
  [(.Refinery, [.SCV]),
  (.Roach, [.Larva]),
  (.RoachWarren, [.Drone]),
  (.RoboticsBay, [.Probe]),
  (.RoboticsFacility, [.Probe]),
  (.SCV, [.CommandCenter, .OrbitalCommand, .PlanetaryFortress]),
  (.SensorTower, [.SCV]),
  (.Sentry, [.Gateway, .WarpGate]),
  (.ShieldBattery, [.Probe]),
  (.SiegeTank, [.Factory]),
  (.SpawningPool, [.Drone]),
  (.SpineCrawler, [.Drone]),
  (.Spire, [.Drone]),
  (.SporeCrawler, [.Drone]),
  (.Stalker, [.Gateway, .WarpGate]),
  (.Stargate, [.Probe]),
  (.Starport, [.SCV]),
  (.SupplyDepot, [.SCV]),
  (.SwarmHostMP, [.Larva]),
  (.Tempest, [.Stargate]),
  (.TemplarArchive, [.Probe]),
  (.Thor, [.Factory]),
  (.TwilightCouncil, [.Probe]),
  (.Ultralisk, [.Larva]),
  (.UltraliskCavern, [.Drone])] ++
  [(.VikingFighter, [.Starport]),
  (.Viper, [.Larva]),
  (.VoidRay, [.Stargate]),
  (.WarpPrism, [.RoboticsFacility]),
  (.WidowMine, [.Factory]),
  (.Zealot, [.Gateway, .WarpGate]),
  (.Zergling, [.Larva])]

/-- The base entries of `RESEARCHERS` from `consts.rs`: the building that
researches each upgrade. -/
def RESEARCHERS_BASE : List (UpgradeId × UnitTypeId) :=
  [(.AdeptPiercingAttack, .TwilightCouncil),
  (.AnabolicSynthesis, .UltraliskCavern),
  (.BansheeCloak, .StarportTechLab),
  (.BansheeSpeed, .StarportTechLab),
  (.BattlecruiserEnableSpecializations, .FusionCore),
  (.BlinkTech, .TwilightCouncil),
  (.Burrow, .Hive),
  (.Charge, .TwilightCouncil),
  (.ChitinousPlating, .UltraliskCavern),
  (.CycloneLockOnDamageUpgrade, .FactoryTechLab),
  (.DarkTemplarBlinkUpgrade, .DarkShrine),
  (.DiggingClaws, .LurkerDenMP),
  (.DrillClaws, .FactoryTechLab),
  (.EvolveGroovedSpines, .HydraliskDen),
  (.EvolveMuscularAugments, .HydraliskDen),
  (.ExtendedThermalLance, .RoboticsBay),
  (.GraviticDrive, .RoboticsBay),
  (.HighCapacityBarrels, .FactoryTechLab),
  (.HiSecAutoTracking, .EngineeringBay),
  (.InfestorEnergyUpgrade, .InfestationPit),
  (.LiberatorMorph, .StarportTechLab),
  (.MedivacIncreaseSpeedBoost, .StarportTechLab),
  (.NeuralParasite, .InfestationPit),
  (.ObserverGraviticBooster, .RoboticsBay),
  (.Overlordspeed, .Hive)] ++
  [(.PersonalCloaking, .GhostAcademy),
  (.PhoenixRangeUpgrade, .FleetBeacon),
  (.ProtossAirArmorsLevel1, .CyberneticsCore),
  (.ProtossAirArmorsLevel2, .CyberneticsCore),
  (.ProtossAirArmorsLevel3, .CyberneticsCore),
  (.ProtossAirWeaponsLevel1, .CyberneticsCore),
  (.ProtossAirWeaponsLevel2, .CyberneticsCore),
  (.ProtossAirWeaponsLevel3, .CyberneticsCore),
  (.ProtossGroundArmorsLevel1, .Forge),
  (.ProtossGroundArmorsLevel2, .Forge),
  (.ProtossGroundArmorsLevel3, .Forge),
  (.ProtossGroundWeaponsLevel1, .Forge),
  (.ProtossGroundWeaponsLevel2, .Forge),
  (.ProtossGroundWeaponsLevel3, .Forge),
  (.ProtossShieldsLevel1, .Forge),
  (.ProtossShieldsLevel2, .Forge),
  (.ProtossShieldsLevel3, .Forge),
  (.PsiStormTech, .TemplarArchive),
  (.PunisherGrenades, .BarracksTechLab),
  (.RavenCorvidReactor, .StarportTechLab),
  (.ShieldWall, .BarracksTechLab),
  (.SmartServos, .FactoryTechLab),
  (.Stimpack, .BarracksTechLab),
  (.TerranBuildingArmor, .EngineeringBay),
  (.TerranInfantryArmorsLevel1, .EngineeringBay)] ++
  [(.TerranInfantryArmorsLevel2, .EngineeringBay),
  (.TerranInfantryArmorsLevel3, .EngineeringBay),
  (.TerranInfantryWeaponsLevel1, .EngineeringBay),
  (.TerranInfantryWeaponsLevel2, .EngineeringBay),
  (.TerranInfantryWeaponsLevel3, .EngineeringBay),
  (.TerranShipWeaponsLevel1, .Armory),
  (.TerranShipWeaponsLevel2, .Armory),
  (.TerranShipWeaponsLevel3, .Armory),
  (.TerranVehicleWeaponsLevel1, .Armory),
  (.TerranVehicleWeaponsLevel2, .Armory),
  (.TerranVehicleWeaponsLevel3, .Armory),
  (.TerranVehicleAndShipArmorsLevel1, .Armory),
  (.TerranVehicleAndShipArmorsLevel2, .Armory),
  (.TerranVehicleAndShipArmorsLevel3, .Armory),
  (.WarpGateResearch, .CyberneticsCore),
  (.ZergFlyerArmorsLevel1, .GreaterSpire),
  (.ZergFlyerArmorsLevel2, .GreaterSpire),
  (.ZergFlyerArmorsLevel3, .GreaterSpire),
  (.ZergFlyerWeaponsLevel1, .GreaterSpire),
  (.ZergFlyerWeaponsLevel2, .GreaterSpire),
  (.ZergFlyerWeaponsLevel3, .GreaterSpire),
  (.ZergGroundArmorsLevel1, .EvolutionChamber),
  (.ZergGroundArmorsLevel2, .EvolutionChamber),
  (.ZergGroundArmorsLevel3, .EvolutionChamber),
  (.Zerglingattackspeed, .SpawningPool)] ++
  [(.Zerglingmovementspeed, .SpawningPool),
  (.ZergMeleeWeaponsLevel1, .EvolutionChamber),
  (.ZergMeleeWeaponsLevel2, .EvolutionChamber),
  (.ZergMeleeWeaponsLevel3, .EvolutionChamber),
  (.ZergMissileWeaponsLevel1, .EvolutionChamber),
  (.ZergMissileWeaponsLevel2, .EvolutionChamber),
  (.ZergMissileWeaponsLevel3, .EvolutionChamber)]

/-- `RESEARCHERS` from `consts.rs`: the base map, plus the
`EnhancedShockwaves` entry inserted under `#[cfg(windows)]`. -/
def RESEARCHERS (v : Variant) : List (UpgradeId × UnitTypeId) :=
  RESEARCHERS_BASE ++
    match v with
    | .windows => [(.EnhancedShockwaves, .GhostAcademy)]
    | .unix => []

/-- `BonusesByAttribute` from `consts.rs`:
`(Option<u32>, HashMap<Attribute, u32>)` — an optional unconditional flat
bonus and the attribute-conditional bonuses. -/
abbrev BonusesByAttribute : Type := Option Nat × List (Attribute × Nat)

/-- `DAMAGE_BONUS_PER_UPGRADE` from `consts.rs`: per unit, a map from target
type to its damage bonus decomposition. -/
def DAMAGE_BONUS_PER_UPGRADE :
    List (UnitTypeId × List (TargetType × BonusesByAttribute)) := [
  (.Probe, [(.Ground, (some 0, []))]),
  (.Adept, [(.Ground, (none, [(.Light, 1)]))]),
  (.Stalker, [(.Any, (none, [(.Armored, 1)]))]),
  (.DarkTemplar, [(.Ground, (some 5, []))]),
  (.Archon, [(.Any, (some 3, [(.Biological, 1)]))]),
  (.Immortal, [(.Ground, (some 2, [(.Armored, 3)]))]),
  (.Colossus, [(.Ground, (none, [(.Light, 1)]))]),
  (.Oracle, [(.Ground, (some 0, []))]),
  (.Tempest, [(.Ground, (some 4, [])), (.Air, (some 3, [(.Massive, 2)]))]),
  (.SCV, [(.Ground, (some 0, []))]),
  (.Marauder, [(.Ground, (none, [(.Armored, 1)]))]),
  (.Ghost, [(.Any, (none, [(.Light, 1)]))]),
  (.Hellion, [(.Ground, (none, [(.Light, 1)]))]),
  (.HellionTank, [(.Ground, (some 2, [(.Light, 1)]))]),
  (.Cyclone, [(.Any, (some 2, []))]),
  (.SiegeTank, [(.Ground, (some 2, [(.Armored, 1)]))]),
  (.SiegeTankSieged, [(.Ground, (some 4, [(.Armored, 1)]))]),
  (.Thor, [(.Ground, (some 3, [])), (.Air, (none, [(.Light, 1)]))]),
  (.ThorAP, [(.Ground, (some 3, [])), (.Air, (some 3, [(.Massive, 1)]))]),
  (.VikingAssault, [(.Ground, (none, [(.Mechanical, 1)]))]),
  (.LiberatorAG, [(.Ground, (some 5, []))]),
  (.Drone, [(.Ground, (some 0, []))]),
  (.Baneling, [(.Ground, (some 2, [(.Light, 2), (.Structure, 3)]))]),
  (.BanelingBurrowed, [(.Ground, (some 2, [(.Light, 2), (.Structure, 3)]))]),
  (.BanelingCocoon, [(.Ground, (some 2, [(.Light, 2), (.Structure, 3)]))]),
  (.Roach, [(.Ground, (some 2, []))]),
  (.Ravager, [(.Ground, (some 2, []))]),
  (.RavagerCocoon, [(.Ground, (some 2, []))]),
  (.LurkerMPBurrowed, [(.Ground, (some 2, [(.Armored, 1)]))]),
  (.Ultralisk, [(.Ground, (some 3, []))]),
  (.Corruptor, [(.Air, (none, [(.Massive, 1)]))]),
  (.BroodLord, [(.Ground, (some 2, []))])]

/-- The base entries of `SPEED_UPGRADES` from `consts.rs`: the movement-speed
upgrade of a unit and its multiplier. -/
def SPEED_UPGRADES_BASE : List (UnitTypeId × (UpgradeId × ℚ)) := [
  (.Banshee, (.BansheeSpeed, 1.3636)),
  (.Zealot, (.Charge, 1.5)),
  (.Observer, (.ObserverGraviticBooster, 2.0)),
  (.WarpPrism, (.GraviticDrive, 1.3)),
  (.Overlord, (.Overlordspeed, 2.915)),
  (.Overseer, (.Overlordspeed, 1.8015)),
  (.Zergling, (.Zerglingmovementspeed, 1.6)),
  (.Baneling, (.CentrificalHooks, 1.18)),
  (.Roach, (.GlialReconstitution, 1.3333334)),
  (.LurkerMP, (.DiggingClaws, 1.1))]

/-- `SPEED_UPGRADES` from `consts.rs`: the base map, plus the `Medivac` and
`VoidRay` entries inserted when `cfg!(windows)`. -/
def SPEED_UPGRADES (v : Variant) : List (UnitTypeId × (UpgradeId × ℚ)) :=
  SPEED_UPGRADES_BASE ++
    match v with
    | .windows =>
      [(.Medivac, (.MedivacRapidDeployment, 1.18)),
       (.VoidRay, (.VoidRaySpeedUpgrade, 1.328))]
    | .unix => []

/-- `SPEED_ON_CREEP` from `consts.rs`: per-unit movement multiplier while on
creep. -/
def SPEED_ON_CREEP : List (UnitTypeId × ℚ) := [
  (.Queen, 2.67),
  (.Zergling, 1.3),
  (.Baneling, 1.3),
  (.Roach, 1.3),
  (.Ravager, 1.3),
  (.Hydralisk, 1.3),
  (.LurkerMP, 1.3),
  (.Ultralisk, 1.3),
  (.Infestor, 1.3),
  (.InfestorTerran, 1.3),
  (.SwarmHostMP, 1.3),
  (.LocustMP, 1.4),
  (.SpineCrawler, 2.5),
  (.SporeCrawler, 2.5)]

/-- `RaceValues` from `consts.rs`: the per-race structural facts. -/
structure RaceValues where
  start_townhall : UnitTypeId
  townhalls : List UnitTypeId
  gas : UnitTypeId
  rich_gas : UnitTypeId
  supply : UnitTypeId
  worker : UnitTypeId
  deriving DecidableEq

/-- `impl Default for RaceValues` from `consts.rs`: every field is the
`NotAUnit` sentinel / the empty list. -/
def RaceValues.default : RaceValues :=
  { start_townhall := .NotAUnit
    townhalls := []
    gas := .NotAUnit
    rich_gas := .NotAUnit
    supply := .NotAUnit
    worker := .NotAUnit }

/-- `RACE_VALUES` from `consts.rs`: the race profiles of the three races. -/
def RACE_VALUES : List (Race × RaceValues) := [
  (.Terran,
    { start_townhall := .CommandCenter
      townhalls :=
        [.CommandCenter, .OrbitalCommand, .PlanetaryFortress,
         .CommandCenterFlying, .OrbitalCommandFlying]
      gas := .Refinery
      rich_gas := .RefineryRich
      supply := .SupplyDepot
      worker := .SCV }),
  (.Zerg,
    { start_townhall := .Hatchery
      townhalls := [.Hatchery, .Lair, .Hive]
      gas := .Extractor
      rich_gas := .ExtractorRich
      supply := .Overlord
      worker := .Drone }),
  (.Protoss,
    { start_townhall := .Nexus
      townhalls := [.Nexus]
      gas := .Assimilator
      rich_gas := .AssimilatorRich
      supply := .Pylon
      worker := .Probe })]

/-- `INHIBITOR_IDS` from `consts.rs`: six inhibitor-zone ids under
`#[cfg(windows)]`, three (the non-flying ones) under `#[cfg(unix)]`. -/
def INHIBITOR_IDS (v : Variant) : List UnitTypeId :=
  match v with
  | .windows =>
    [.InhibitorZoneSmall, .InhibitorZoneMedium, .InhibitorZoneLarge,
     .InhibitorZoneFlyingSmall, .InhibitorZoneFlyingMedium,
     .InhibitorZoneFlyingLarge]
  | .unix =>
    [.InhibitorZoneSmall, .InhibitorZoneMedium, .InhibitorZoneLarge]

/-- `INHIBITOR_ZONE_RADIUS` from `consts.rs`: the base radii, plus the flying
zones' radii inserted under `#[cfg(windows)]`. -/
def INHIBITOR_ZONE_RADIUS (v : Variant) : List (UnitTypeId × ℚ) :=
  [(.InhibitorZoneSmall, 4.0),
   (.InhibitorZoneMedium, 5.0),
   (.InhibitorZoneLarge, 6.0)] ++
    match v with
    | .windows =>
      [(.InhibitorZoneFlyingSmall, 4.0),
       (.InhibitorZoneFlyingMedium, 5.0),
       (.InhibitorZoneFlyingLarge, 6.0)]
    | .unix => []

/-- `mapFind entries k` is the result of building a `HashMap` by inserting
`entries` in order (a later entry with the same key overwrites an earlier
one, exactly as the Rust `hashmap!` macro's sequence of `insert` calls does)
and then calling `get(k)`. -/
def mapFind {α β : Type} [DecidableEq α] (entries : List (α × β)) (k : α) :
    Option β :=
  entries.foldl (fun acc p => if p.1 = k then some p.2 else acc) none

theorem mapFind_mem {α β : Type} [DecidableEq α] :
    ∀ (entries : List (α × β)) (acc : Option β) (k : α) (v : β),
      entries.foldl (fun acc p => if p.1 = k then some p.2 else acc) acc =
        some v →
      (k, v) ∈ entries ∨ acc = some v := by
  intro entries
  induction entries with
  | nil => intro acc k v h; exact Or.inr h
  | cons p rest ih =>
    intro acc k v h
    rcases ih _ k v h with hmem | hacc
    · exact Or.inl (List.mem_cons_of_mem _ hmem)
    · by_cases hk : p.1 = k
      · simp only [hk, if_pos rfl] at hacc
        left
        have : p = (k, v) := by
          obtain ⟨a, b⟩ := p
          simp only [Option.some.injEq] at hacc
          simp_all
        rw [← this]; exact List.mem_cons_self _ _
      · simp only [if_neg hk] at hacc
        exact Or.inr hacc

theorem mem_of_mapFind_eq_some {α β : Type} [DecidableEq α]
    {entries : List (α × β)} {k : α} {v : β}
    (h : mapFind entries k = some v) : (k, v) ∈ entries := by
  rcases mapFind_mem entries none k v h with hmem | hacc
  · exact hmem
  · cases hacc

/-- `alias_pair`: the paired-alias query over `UNIT_ALIAS`
(`UNIT_ALIAS.get(unit)`). -/
def alias_pair (u : UnitTypeId) : Option UnitTypeId :=
  mapFind UNIT_ALIAS u

/-- `alias_group`: the morph-group query over `TECH_ALIAS`; a unit with no
entry has the empty group. -/
def alias_group (u : UnitTypeId) : List UnitTypeId :=
  (mapFind TECH_ALIAS u).getD []

/-- `tech_requirement`: the single-hop prerequisite query over
`TECH_REQUIREMENTS` (`TECH_REQUIREMENTS.get(unit)`). -/
def tech_requirement (u : UnitTypeId) : Option UnitTypeId :=
  mapFind TECH_REQUIREMENTS u

/-- `canonical_producer`: the canonical-producer query over `PRODUCERS`. -/
def canonical_producer (u : UnitTypeId) : Option UnitTypeId :=
  mapFind PRODUCERS u

/-- `all_producers`: the all-producers query over `ALL_PRODUCERS`; a unit
with no entry has the empty producer set. -/
def all_producers (u : UnitTypeId) : List UnitTypeId :=
  (mapFind ALL_PRODUCERS u).getD []

/-- `researcher`: the researcher query over `RESEARCHERS` of the selected
variant. -/
def researcher (v : Variant) (up : UpgradeId) : Option UnitTypeId :=
  mapFind (RESEARCHERS v) up

/-- `damage_bonus`: the damage-bonus query over `DAMAGE_BONUS_PER_UPGRADE`:
an exact-match lookup of the unit and then of the target type. -/
def damage_bonus (u : UnitTypeId) (t : TargetType) : Option BonusesByAttribute :=
  (mapFind DAMAGE_BONUS_PER_UPGRADE u).bind (fun m => mapFind m t)

/-- `speed_upgrade`: the speed-upgrade query over `SPEED_UPGRADES` of the
selected variant. -/
def speed_upgrade (v : Variant) (u : UnitTypeId) : Option (UpgradeId × ℚ) :=
  mapFind (SPEED_UPGRADES v) u

/-- `creep_speed_multiplier`: the on-creep multiplier query over
`SPEED_ON_CREEP`. -/
def creep_speed_multiplier (u : UnitTypeId) : Option ℚ :=
  mapFind SPEED_ON_CREEP u

/-- `inhibitor_zone_radius`: the radius query over `INHIBITOR_ZONE_RADIUS`
of the selected variant. -/
def inhibitor_zone_radius (v : Variant) (u : UnitTypeId) : Option ℚ :=
  mapFind (INHIBITOR_ZONE_RADIUS v) u

/-- `get_race_profile`: the race-profile query over `RACE_VALUES`. -/
def get_race_profile (r : Race) : Option RaceValues :=
  mapFind RACE_VALUES r

/-- `n`-fold application of `tech_requirement`, absorbing absence. -/
def iterTechReq : Nat → Option UnitTypeId → Option UnitTypeId
  | 0, o => o
  | n + 1, o => iterTechReq n (o.bind tech_requirement)

/-- The sequence of units visited by repeatedly applying `tech_requirement`
starting from `u`, cut off after `fuel` hops. -/
def techTrace : Nat → UnitTypeId → List UnitTypeId
  | 0, u => [u]
  | n + 1, u =>
    u ::
      match tech_requirement u with
      | some v => techTrace n v
      | none => []

/-- Decidable check of the alias-pair symmetry invariant on the map built
from `UNIT_ALIAS`: every key's value must map back to the key. -/
def aliasPairSymmetric : Bool :=
  UNIT_ALIAS.all fun p =>
    match alias_pair p.1 with
    | some b => alias_pair b = some p.1
    | none => true

/-- A profile is complete when no field is the `NotAUnit` sentinel and the
townhall list is non-empty. -/
def completeProfile (p : RaceValues) : Prop :=
  p.start_townhall ≠ UnitTypeId.NotAUnit ∧
  p.townhalls ≠ [] ∧
  p.gas ≠ UnitTypeId.NotAUnit ∧
  p.rich_gas ≠ UnitTypeId.NotAUnit ∧
  p.supply ≠ UnitTypeId.NotAUnit ∧
  p.worker ≠ UnitTypeId.NotAUnit

instance (p : RaceValues) : Decidable (completeProfile p) := by
  unfold completeProfile; infer_instance

/-- The race-profile completeness of §4.2, as a predicate on the race: a
profile entry exists and it is complete. -/
def raceProfileComplete (r : Race) : Prop :=
  match get_race_profile r with
  | some p => completeProfile p
  | none => False

instance (r : Race) : Decidable (raceProfileComplete r) := by
  unfold raceProfileComplete
  cases get_race_profile r <;> simp <;> infer_instance

/-! ## The claimed properties -/

/-- C1: the claim that the paired alias relation `UNIT_ALIAS` is symmetric
(`alias_pair(K) = B` implies `alias_pair(B) = K`) fails on the data: the
literal table lists `Changeling` five times as a key, so under the `HashMap`
insertion semantics the final map sends `Changeling` to
`ChangelingZerglingWings`, while `ChangelingMarine` still maps to
`Changeling`; hence `alias_pair(ChangelingMarine) = Changeling` but
`alias_pair(Changeling) ≠ ChangelingMarine`, and the symmetry check over the
whole table evaluates to `false`. -/
theorem unit_alias_pair_symmetry_fails :
    alias_pair .ChangelingMarine = some .Changeling ∧
    alias_pair .Changeling = some .ChangelingZerglingWings ∧
    UnitTypeId.ChangelingZerglingWings ≠ .ChangelingMarine ∧
    aliasPairSymmetric = false := by decide

/-- C2 (counterexample): the morph-group relation `TECH_ALIAS` is not made of
complete alias cliques: `Reactor` maps to the set
`{BarracksReactor, FactoryReactor, StarportReactor}`, but
`alias_group(BarracksReactor) = {Reactor}` does not contain the co-member
`FactoryReactor`; moreover `FactoryFlying` maps to `{Factory}` while
`Factory` is not a key at all, so `alias_group(Factory)` is empty and does
not contain the key `FactoryFlying`. -/
theorem tech_alias_clique_closure_fails :
    mapFind TECH_ALIAS .Reactor =
      some [.BarracksReactor, .FactoryReactor, .StarportReactor] ∧
    UnitTypeId.FactoryReactor ∉ alias_group .BarracksReactor ∧
    UnitTypeId.Factory ∈ alias_group .FactoryFlying ∧
    alias_group .Factory = [] := by decide

/-- C2 (amended): for every key `K` of `TECH_ALIAS` with value set `S` and
every member `M` of `S` that is itself a key of `TECH_ALIAS`,
`alias_group(M)` contains `K` (symmetry restricted to key members; the full
clique closure does not hold). -/
theorem tech_alias_key_member_symmetry (K : UnitTypeId) (S : List UnitTypeId)
    (h : mapFind TECH_ALIAS K = some S) (M : UnitTypeId) (hM : M ∈ S)
    (hkey : (mapFind TECH_ALIAS M).isSome = true) : K ∈ alias_group M := by
  have hall : ∀ p ∈ TECH_ALIAS, ∀ m ∈ p.2,
      (mapFind TECH_ALIAS m).isSome = true → p.1 ∈ alias_group m := by decide
  exact hall (K, S) (mem_of_mapFind_eq_some h) M hM hkey

/-- C2 (witness): the amended statement applied at the concrete key
`Hatchery`, member `Lair`. -/
theorem tech_alias_key_member_symmetry_witness :
    mapFind TECH_ALIAS .Hatchery = some [.Lair, .Hive] ∧
    UnitTypeId.Hatchery ∈ alias_group .Lair :=
  ⟨by decide,
    tech_alias_key_member_symmetry .Hatchery [.Lair, .Hive] (by decide) .Lair
      (by decide) (by decide)⟩

/-- C3: the claim that initialization rejects internally inconsistent table
data and refuses to produce a usable handle fails on the code: construction
performs no validation at all. The compiled-in `UNIT_ALIAS` data violates
the alias-pair symmetry invariant, yet the tables are built from it as-is
and answer queries normally. -/
theorem registry_usable_despite_invariant_violation :
    aliasPairSymmetric = false ∧
    alias_pair .Changeling = some .ChangelingZerglingWings ∧
    canonical_producer .Marine = some .Barracks ∧
    creep_speed_multiplier .Queen = some 2.67 :=
  ⟨by decide, by decide, by decide, rfl⟩

/-- C4: for every unit `K` with a canonical producer `P` in `PRODUCERS`,
`P` is a member of `ALL_PRODUCERS[K]`. -/
theorem producer_in_all_producers (K P : UnitTypeId)
    (h : canonical_producer K = some P) : P ∈ all_producers K := by
  have hall : PRODUCERS.all (fun p => (all_producers p.1).contains p.2) =
      true := by decide
  have := List.all_eq_true.mp hall _ (mem_of_mapFind_eq_some h)
  simpa using this

/-- C4 (witness): the theorem applied at the concrete key `Marine`, whose
canonical producer `Barracks` lies in `all_producers(Marine)`. -/
theorem producer_in_all_producers_witness :
    canonical_producer .Marine = some .Barracks ∧
    UnitTypeId.Barracks ∈ all_producers .Marine :=
  ⟨by decide, producer_in_all_producers .Marine .Barracks (by decide)⟩

/-- C5: iterating `tech_requirement` from any unit identifier reaches
absence within six hops (a bound that covers every chain in the finite map),
and the sequence of identifiers visited on the way never repeats one: the
map contains no cycle. -/
theorem tech_requirements_acyclic :
    ∀ u : UnitTypeId,
      iterTechReq 6 (some u) = none ∧ (techTrace 6 u).Nodup := by decide

/-- C6: under the reduced-feature (`unix`) variant the flying inhibitor-zone
identifiers and radii are absent from `INHIBITOR_IDS` and
`INHIBITOR_ZONE_RADIUS`; under the full-feature (`windows`) variant they are
present and each flying zone's radius equals the radius of the non-flying
zone of the matching size (small 4, medium 5, large 6); and every variant's
tables are exactly one of the two datasets, never a mixture. -/
theorem inhibitor_variant_isolation :
    (UnitTypeId.InhibitorZoneFlyingSmall ∉ INHIBITOR_IDS .unix ∧
     UnitTypeId.InhibitorZoneFlyingMedium ∉ INHIBITOR_IDS .unix ∧
     UnitTypeId.InhibitorZoneFlyingLarge ∉ INHIBITOR_IDS .unix ∧
     inhibitor_zone_radius .unix .InhibitorZoneFlyingSmall = none ∧
     inhibitor_zone_radius .unix .InhibitorZoneFlyingMedium = none ∧
     inhibitor_zone_radius .unix .InhibitorZoneFlyingLarge = none) ∧
    (UnitTypeId.InhibitorZoneFlyingSmall ∈ INHIBITOR_IDS .windows ∧
     UnitTypeId.InhibitorZoneFlyingMedium ∈ INHIBITOR_IDS .windows ∧
     UnitTypeId.InhibitorZoneFlyingLarge ∈ INHIBITOR_IDS .windows ∧
     inhibitor_zone_radius .windows .InhibitorZoneFlyingSmall = some 4.0 ∧
     inhibitor_zone_radius .windows .InhibitorZoneFlyingMedium = some 5.0 ∧
     inhibitor_zone_radius .windows .InhibitorZoneFlyingLarge = some 6.0 ∧
     inhibitor_zone_radius .windows .InhibitorZoneFlyingSmall =
       inhibitor_zone_radius .windows .InhibitorZoneSmall ∧
     inhibitor_zone_radius .windows .InhibitorZoneFlyingMedium =
       inhibitor_zone_radius .windows .InhibitorZoneMedium ∧
     inhibitor_zone_radius .windows .InhibitorZoneFlyingLarge =
       inhibitor_zone_radius .windows .InhibitorZoneLarge) ∧
    (∀ v : Variant,
      (INHIBITOR_IDS v = INHIBITOR_IDS .windows ∧
        INHIBITOR_ZONE_RADIUS v = INHIBITOR_ZONE_RADIUS .windows) ∨
      (INHIBITOR_IDS v = INHIBITOR_IDS .unix ∧
        INHIBITOR_ZONE_RADIUS v = INHIBITOR_ZONE_RADIUS .unix)) := by
  refine ⟨⟨by decide, by decide, by decide, rfl, rfl, rfl⟩,
    ⟨by decide, by decide, by decide, rfl, rfl, rfl, rfl, rfl, rfl⟩, ?_⟩
  intro v
  cases v
  · exact Or.inl ⟨rfl, rfl⟩
  · exact Or.inr ⟨rfl, rfl⟩

/-- C7: `damage_bonus(Immortal, Ground)` yields a flat bonus of 2 together
with an attribute bonus of 3 against `Armored`, and
`damage_bonus(Immortal, Air)` yields absence: the lookup matches the target
type exactly, with no fallback. -/
theorem immortal_damage_bonus_exact_match :
    damage_bonus .Immortal .Ground = some (some 2, [(.Armored, 3)]) ∧
    damage_bonus .Immortal .Air = none := by decide

/-- C8: the literal spot checks, under both dataset variants:
`canonical_producer(Marine) = Barracks`;
`all_producers(Zealot) = {Gateway, WarpGate}` with
`canonical_producer(Zealot)` in that set;
`researcher(Stimpack) = BarracksTechLab`;
`speed_upgrade(Zergling) = (Zerglingmovementspeed, 1.6)`;
`creep_speed_multiplier(Queen) = 2.67`. -/
theorem literal_spot_checks :
    ∀ v : Variant,
      canonical_producer .Marine = some .Barracks ∧
      all_producers .Zealot = [.Gateway, .WarpGate] ∧
      canonical_producer .Zealot = some .Gateway ∧
      UnitTypeId.Gateway ∈ all_producers .Zealot ∧
      researcher v .Stimpack = some .BarracksTechLab ∧
      speed_upgrade v .Zergling = some (.Zerglingmovementspeed, 1.6) ∧
      creep_speed_multiplier .Queen = some 2.67 := by
  intro v
  cases v <;>
    exact ⟨by decide, by decide, by decide, by decide, by decide, rfl, rfl⟩

/-- C9: for each of the exactly three race values an entry exists in
`RACE_VALUES` and none of its six fields is the `NotAUnit` sentinel or
empty. -/
theorem race_profiles_complete : ∀ r : Race, raceProfileComplete r := by
  decide

/-- C10: the canonical-producer map and the all-producers map cover exactly
the same units: `canonical_producer(U)` is present if and only if
`ALL_PRODUCERS` has an entry for `U`, if and only if `all_producers(U)` is
non-empty. -/
theorem producer_maps_same_key_set :
    ∀ u : UnitTypeId,
      ((canonical_producer u).isSome = true ↔
        (mapFind ALL_PRODUCERS u).isSome = true) ∧
      ((mapFind ALL_PRODUCERS u).isSome = true ↔ all_producers u ≠ []) := by
  decide

end SC2
